import Mathlib

/-!
# Otter Browser: the web view widget (src/ui/WebWidget.cpp)

A shallow embedding of `Otter::WebWidget`: the per-view option store, the
reload timer, the quick-search dispatcher, the reload-time menu and the
context-menu composer, followed by theorems about them.

Conventions of the embedding

* Toolkit value types are small inductive models: `QVariant` is restricted to
  the kinds this file constructs or tests (invalid, int, string), `QString` and
  `QUrl` are Lean strings, a `QVariantHash` is an association list observed only
  through `contains` / `value`.
* Everything the class gets from outside (pure virtual members, singletons, the
  toolkit's timer id allocator, a modal dialog) is a field of `Externals`.
* Calls that leave the class (the pure virtual `triggerAction(identifier)`, the
  virtual `search`, the `requestedSearch` signal) are recorded in logs carried
  by the state, in call order.
* Timers owned by the view (`QObject::startTimer` / `killTimer`) are the list
  `timers` of the state.
* A context menu is the list of entries the `QMenu` holds when it is executed:
  the calls of `showContextMenu` in order, each applied with the rule of
  `QWidget::addAction` that an action already held is moved, not duplicated.
-/

namespace Otter

/-! ## Toolkit values -/

abbrev QString := String

abbrev QUrl := String

/-- Reduction of an integer to the range of a 32-bit C++ `int`, applied to the
product `reloadTime * 1000` that is computed in `int` before `startTimer`. -/
def wrapInt32 (x : Int) : Int :=
  (x + 2147483648) % 4294967296 - 2147483648

/-- The test `QChar::isSpace()`: the ASCII controls 9 to 13, the space, U+0085,
U+00A0 and the characters of the Unicode separator categories. -/
def QChar.isSpace (ch : Char) : Bool :=
  let u := ch.toNat
  u == 0x20 || (0x09 ≤ u && u ≤ 0x0D) || u == 0x85 || u == 0xA0 || u == 0x1680 ||
  (0x2000 ≤ u && u ≤ 0x200A) || u == 0x2028 || u == 0x2029 || u == 0x202F || u == 0x205F ||
  u == 0x3000

/-- The characters of `QString::trimmed()`. -/
def QString.trimmedChars (s : QString) : List Char :=
  ((s.toList.dropWhile QChar.isSpace).reverse.dropWhile QChar.isSpace).reverse

/-- Value of a non-empty run of decimal digits. -/
def parseDigits (cs : List Char) : Option Nat :=
  if cs = [] then none
  else cs.foldlM (fun acc ch => if ch.isDigit then some (acc * 10 + (ch.toNat - 48)) else none) 0

/-- C-locale `QString::toLongLong()` in base 10: surrounding white space is
ignored, an optional sign precedes the digits, and anything unparsable or
outside the 64-bit range gives 0. -/
def QString.toLongLong (s : QString) : Int :=
  let parsed : Option Int :=
    match s.trimmedChars with
    | '-' :: ds => (parseDigits ds).map (fun n => -(n : Int))
    | '+' :: ds => (parseDigits ds).map (fun n => (n : Int))
    | ds => (parseDigits ds).map (fun n => (n : Int))
  match parsed with
  | some n => if -9223372036854775808 ≤ n ∧ n ≤ 9223372036854775807 then n else 0
  | none => 0

/-- The result of `QVariant::type()` for the kinds modelled. -/
inductive QVariantType
  | Invalid
  | Int
  | String
  deriving DecidableEq, Repr

/-- A `QVariant`: default constructed (invalid), holding an `int`, holding a
null `QString()`, or holding a non-null string (possibly empty). -/
inductive QVariant
  | invalid
  | int (n : Int)
  | nullString
  | string (s : QString)
  deriving DecidableEq, Repr

namespace QVariant

def type : QVariant → QVariantType
  | invalid => QVariantType.Invalid
  | int _ => QVariantType.Int
  | nullString => QVariantType.String
  | string _ => QVariantType.String

/-- Null variants: `QVariant::isNull()` is true for an invalid variant and for
one holding a null string. -/
def isNull : QVariant → Bool
  | invalid => true
  | int _ => false
  | nullString => true
  | string _ => false

/-- The conversion `QVariant::toInt()`; a string is converted with
`toLongLong()` and the result narrowed to `int`. -/
def toInt : QVariant → Int
  | invalid => 0
  | int n => n
  | nullString => 0
  | string s => wrapInt32 (QString.toLongLong s)

def toString : QVariant → QString
  | invalid => ""
  | int n => ToString.toString n
  | nullString => ""
  | string s => s

end QVariant

/-- A `QVariantHash` (`QHash<QString, QVariant>`), at most one entry per key. -/
abbrev QVariantHash := List (QString × QVariant)

namespace QVariantHash

def contains (h : QVariantHash) (key : QString) : Bool :=
  (h.lookup key).isSome

/-- The call `value(key, defaultValue)`; `value(key)` passes a default constructed variant. -/
def value (h : QVariantHash) (key : QString) (defaultValue : QVariant) : QVariant :=
  (h.lookup key).getD defaultValue

def remove (h : QVariantHash) (key : QString) : QVariantHash :=
  h.filter (fun e => e.1 != key)

/-- The assignment `h[key] = v`. -/
def insert (h : QVariantHash) (key : QString) (v : QVariant) : QVariantHash :=
  (key, v) :: h.filter (fun e => e.1 != key)

end QVariantHash

/-! ## Actions, menus, timers -/

/-- The members of `Action::ActionIdentifier` used by WebWidget.cpp. -/
inductive ActionIdentifier
  | GoBackAction | GoForwardAction | RewindAction | FastForwardAction
  | ReloadAction | ReloadOrStopAction | ScheduleReloadAction | StopScheduledReloadAction
  | AddBookmarkAction | CopyAddressAction | PrintAction | CreateSearchAction
  | InspectElementAction | ViewSourceAction | ValidateAction
  | OpenFrameInCurrentTabAction | OpenFrameInNewTabAction | OpenFrameInNewTabBackgroundAction
  | ViewFrameSourceAction | ReloadFrameAction | CopyFrameLinkToClipboardAction
  | ContentBlockingAction | WebsitePreferencesAction | FullScreenAction
  | UndoAction | RedoAction | CutAction | CopyAction | PasteAction | DeleteAction
  | SelectAllAction | ClearAllAction | CheckSpellingAction
  | SearchAction | SearchMenuAction | OpenSelectionAsLinkAction
  | OpenLinkAction | OpenLinkInNewTabAction | OpenLinkInNewTabBackgroundAction
  | OpenLinkInNewWindowAction | OpenLinkInNewWindowBackgroundAction
  | BookmarkLinkAction | CopyLinkToClipboardAction | SaveLinkToDiskAction | SaveLinkToDownloadsAction
  | OpenImageInNewTabAction | ReloadImageAction | CopyImageUrlToClipboardAction
  | SaveImageToDiskAction | CopyImageToClipboardAction | ImagePropertiesAction
  | CopyMediaUrlToClipboardAction | SaveMediaToDiskAction
  | MediaPlayPauseAction | MediaMuteAction | MediaLoopAction | MediaControlsAction
  deriving DecidableEq, Repr

/-- An entry of a submenu: an action or a separator. -/
inductive MenuItem
  | action (identifier : ActionIdentifier)
  | separator
  deriving DecidableEq, Repr

/-- An entry of the context menu: the action `getAction(identifier)` (the
function is implemented outside this class and taken to return one action per
identifier), a separator or a submenu. -/
inductive MenuEntry
  | action (identifier : ActionIdentifier)
  | separator
  | menu (title : String) (items : List MenuItem)
  deriving DecidableEq, Repr

/-- A `QAction` of the reload-time or quick-search menu. -/
structure QAction where
  text : String
  data : QVariant
  toolTip : String
  isSeparator : Bool
  checkable : Bool
  checked : Bool
  deriving DecidableEq, Repr

/-- A running timer of the view. -/
structure Timer where
  id : Int
  interval : Int
  deriving DecidableEq, Repr

abbrev OpenHints := Nat

/-- The fields of `SearchInformation` read by WebWidget.cpp. -/
structure SearchInformation where
  identifier : QString
  title : QString
  description : QString
  deriving DecidableEq, Repr

/-- The values of the `MenuFlag` enumerators (declared in WebWidget.h). -/
structure MenuFlagValues where
  StandardMenu : Nat
  LinkMenu : Nat
  MailMenu : Nat
  ImageMenu : Nat
  MediaMenu : Nat
  SelectionMenu : Nat
  EditMenu : Nat
  FrameMenu : Nat
  FormMenu : Nat

namespace MenuFlagValues

def all (c : MenuFlagValues) : List Nat :=
  [c.StandardMenu, c.LinkMenu, c.MailMenu, c.ImageMenu, c.MediaMenu,
   c.SelectionMenu, c.EditMenu, c.FrameMenu, c.FormMenu]

/-- The enumerators are flags of a bitset: none is zero and no two share a bit. -/
def Valid (c : MenuFlagValues) : Prop :=
  (∀ x ∈ c.all, x ≠ 0) ∧ c.all.Pairwise (fun a b => a &&& b = 0)

instance (c : MenuFlagValues) : Decidable c.Valid := by
  unfold Valid; infer_instance

end MenuFlagValues

/-- What WebWidget.cpp obtains from outside the class. -/
structure Externals where
  /-- The call `SettingsManager::getValue(key, url)`. -/
  getValue : QString → QUrl → QVariant
  /-- The pure virtual `getUrl()`. -/
  getUrl : QUrl
  /-- The pure virtual `isLoading()`. -/
  isLoading : Bool
  /-- The call `SearchesManager::getSearchEngine(identifier)`, `none` for a null pointer. -/
  getSearchEngine : QString → Option SearchInformation
  /-- The call `SearchesManager::getSearchEngines()`. -/
  getSearchEngines : List QString
  /-- The call `WindowsManager::calculateOpenHints()`. -/
  calculateOpenHints : OpenHints
  /-- The enumerator `CurrentTabOpen`. -/
  CurrentTabOpen : OpenHints
  /-- The identifier `QObject::startTimer` hands out, given the running timers. -/
  newTimerId : List Timer → Int
  /-- A `ReloadTimeDialog` opened with the given initial value: the chosen
  reload time when accepted, `none` when rejected. -/
  reloadTimeDialog : Int → Option Int

/-- The state of a view: the members of WebWidget used here, its running
timers and the logs of outgoing calls. -/
structure WebWidget where
  m_options : QVariantHash
  m_reloadTimeMenu : Option (List QAction)
  m_quickSearchMenu : Option (List QAction)
  m_reloadTimer : Int
  timers : List Timer
  triggered : List ActionIdentifier
  searched : List (QString × QString)
  requestedSearch : List (QString × QString × OpenHints)
  deriving DecidableEq, Repr

namespace WebWidget

/-- The constructor `WebWidget::WebWidget`. -/
def new : WebWidget :=
  { m_options := [], m_reloadTimeMenu := none, m_quickSearchMenu := none, m_reloadTimer := 0,
    timers := [], triggered := [], searched := [], requestedSearch := [] }

/-- The call `QObject::startTimer(interval)`: a negative interval is refused
with the result 0, otherwise a timer with a new identifier runs. -/
def startTimer (env : Externals) (w : WebWidget) (interval : Int) : WebWidget × Int :=
  if interval < 0 then (w, 0)
  else
    let id := env.newTimerId w.timers
    ({ w with timers := w.timers ++ [{ id := id, interval := interval }] }, id)

/-- The call `QObject::killTimer(id)`. -/
def killTimer (w : WebWidget) (id : Int) : WebWidget :=
  { w with timers := w.timers.filter (fun t => t.id != id) }

/-- The pure virtual `triggerAction(identifier)`: implemented outside this
class; the call is recorded and the members of WebWidget are left as they are. -/
def triggerAction (w : WebWidget) (identifier : ActionIdentifier) : WebWidget :=
  { w with triggered := w.triggered ++ [identifier] }

/-- The virtual `search(query, engine)`, whose body here is empty; the call is recorded. -/
def search (w : WebWidget) (query engine : QString) : WebWidget :=
  { w with searched := w.searched ++ [(query, engine)] }

def getSelectedText (_w : WebWidget) : QString := ""

def getOption (env : Externals) (w : WebWidget) (key : QString) (url : QUrl) : QVariant :=
  if w.m_options.contains key then
    w.m_options.value key QVariant.invalid
  else
    env.getValue key (if url.isEmpty then env.getUrl else url)

def hasOption (w : WebWidget) (key : QString) : Bool :=
  w.m_options.contains key

def getOptions (w : WebWidget) : QVariantHash :=
  w.m_options

def timerEvent (env : Externals) (w : WebWidget) (timerId : Int) : WebWidget :=
  if timerId = w.m_reloadTimer then
    let w1 := w.killTimer w.m_reloadTimer
    let w2 := { w1 with m_reloadTimer := 0 }
    if !env.isLoading then w2.triggerAction ActionIdentifier.ReloadAction else w2
  else w

def startReloadTimer (env : Externals) (w : WebWidget) : WebWidget :=
  let reloadTime := (w.getOption env "Content/PageReloadTime" "").toInt
  if reloadTime ≥ 0 then
    let w1 := w.triggerAction ActionIdentifier.StopScheduledReloadAction
    if reloadTime > 0 then
      let r := w1.startTimer env (wrapInt32 (reloadTime * 1000))
      { r.1 with m_reloadTimer := r.2 }
    else w1
  else w

def clearOptions (w : WebWidget) : WebWidget :=
  { w with m_options := [] }

def updateQuickSearch (w : WebWidget) : WebWidget :=
  match w.m_quickSearchMenu with
  | some _ => { w with m_quickSearchMenu := some [] }
  | none => w

/-- The closing lines of `setOption`: a null value removes the entry, any other is stored. -/
def storeOption (w : WebWidget) (key : QString) (value : QVariant) : WebWidget :=
  if value.isNull then { w with m_options := w.m_options.remove key }
  else { w with m_options := w.m_options.insert key value }

def setOption (env : Externals) (w : WebWidget) (key : QString) (value : QVariant) : WebWidget :=
  if key = "Search/DefaultQuickSearchEngine" then
    let quickSearchEngine := value.toString
    if quickSearchEngine ≠
        (w.m_options.value "Search/DefaultQuickSearchEngine" QVariant.invalid).toString then
      (w.storeOption key value).updateQuickSearch
    else w
  else if key = "Content/PageReloadTime" then
    let reloadTime := value.toInt
    if reloadTime = (w.m_options.value "Content/PageReloadTime" (QVariant.int (-1))).toInt then w
    else
      let w1 := if w.m_reloadTimer ≠ 0 then { w.killTimer w.m_reloadTimer with m_reloadTimer := 0 } else w
      let w2 :=
        if reloadTime ≥ 0 then
          let w3 := w1.triggerAction ActionIdentifier.StopScheduledReloadAction
          if reloadTime > 0 then
            let r := w3.startTimer env (wrapInt32 (reloadTime * 1000))
            { r.1 with m_reloadTimer := r.2 }
          else w3
        else w1
      w2.storeOption key value
  else w.storeOption key value

def setOptions (w : WebWidget) (options : QVariantHash) : WebWidget :=
  { w with m_options := options }

def setReloadTime (env : Externals) (w : WebWidget) (action : QAction) : WebWidget :=
  let reloadTime := action.data.toInt
  if reloadTime = -2 then
    match env.reloadTimeDialog (max 0 (w.getOption env "Content/PageReloadTime" "").toInt) with
    | some chosen => w.setOption env "Content/PageReloadTime" (QVariant.int chosen)
    | none => w
  else w.setOption env "Content/PageReloadTime" (QVariant.int reloadTime)

def quickSearch (env : Externals) (w : WebWidget) (action : Option QAction) : WebWidget :=
  let identifier : QString :=
    match action with
    | none => ""
    | some a => if a.data.type ≠ QVariantType.String then "" else a.data.toString
  match env.getSearchEngine identifier with
  | none => w
  | some engine =>
    let w1 :=
      if engine.identifier ≠
          (w.m_options.value "Search/DefaultQuickSearchEngine" QVariant.invalid).toString then
        w.setOption env "Search/DefaultQuickSearchEngine" (QVariant.string engine.identifier)
      else w
    let hints := env.calculateOpenHints
    if hints = env.CurrentTabOpen then
      w1.search w1.getSelectedText engine.identifier
    else
      { w1 with requestedSearch := w1.requestedSearch ++ [(w1.getSelectedText, engine.identifier, hints)] }

def getQuickSearchMenu (w : WebWidget) : WebWidget × List QAction :=
  match w.m_quickSearchMenu with
  | some menu => (w, menu)
  | none => ({ w with m_quickSearchMenu := some [] }, [])

def quickSearchMenuAboutToShow (env : Externals) (w : WebWidget) : WebWidget :=
  match w.m_quickSearchMenu with
  | some [] =>
    let menu := env.getSearchEngines.foldl
      (fun (m : List QAction) (id : QString) =>
        match env.getSearchEngine id with
        | some engine =>
          m ++ [{ text := engine.title, data := QVariant.string engine.identifier,
                  toolTip := engine.description, isSeparator := false,
                  checkable := false, checked := false }]
        | none => m) []
    { w with m_quickSearchMenu := some menu }
  | _ => w

/-- The timer invariant of the view: at most one timer runs, and a running
timer carries the non-zero id recorded in `m_reloadTimer`. -/
def TimerInv (w : WebWidget) : Prop :=
  w.timers.length ≤ 1 ∧ ∀ t ∈ w.timers, t.id = w.m_reloadTimer ∧ t.id ≠ 0

end WebWidget

/-! ## The context menu -/

/-- The test `flags & flag` of a `QFlags` value in a condition. -/
def testFlag (flags flag : Nat) : Bool :=
  (flags &&& flag) != 0

open ActionIdentifier in
/-- The calls `menu.addAction`, `menu.addSeparator` and `menu.addMenu` made by
`WebWidget::showContextMenu`, in the order of the calls. -/
def showContextMenuCalls (c : MenuFlagValues) (flags : Nat) : List MenuEntry :=
  if testFlag flags c.StandardMenu then
    [.action GoBackAction, .action GoForwardAction, .action RewindAction,
     .action FastForwardAction, .separator,
     .action ReloadOrStopAction, .action ScheduleReloadAction, .separator,
     .action AddBookmarkAction, .action CopyAddressAction, .action PrintAction, .separator]
    ++ (if testFlag flags c.FormMenu then [.action CreateSearchAction, .separator] else [])
    ++ [.action InspectElementAction, .action ViewSourceAction, .action ValidateAction, .separator]
    ++ (if testFlag flags c.FrameMenu then
          [.menu "Frame"
            [.action OpenFrameInCurrentTabAction, .action OpenFrameInNewTabAction,
             .action OpenFrameInNewTabBackgroundAction, .separator,
             .action ViewFrameSourceAction, .action ReloadFrameAction,
             .action CopyFrameLinkToClipboardAction],
           .separator]
        else [])
    ++ [.action ContentBlockingAction, .action WebsitePreferencesAction, .separator,
        .action FullScreenAction]
  else
    (if testFlag flags c.EditMenu then
      [.action UndoAction, .action RedoAction, .separator,
       .action CutAction, .action CopyAction, .action PasteAction, .action DeleteAction, .separator,
       .action SelectAllAction, .action ClearAllAction, .separator]
      ++ (if testFlag flags c.FormMenu then [.action CreateSearchAction, .separator] else [])
      ++ (if flags = c.EditMenu ∨ flags = (c.EditMenu ||| c.FormMenu) then
            [.action InspectElementAction, .separator]
          else [])
      ++ [.action CheckSpellingAction, .separator]
     else [])
    ++ (if testFlag flags c.SelectionMenu then
      [.action SearchAction, .action SearchMenuAction, .separator]
      ++ (if !testFlag flags c.EditMenu then [.action CopyAction, .separator] else [])
      ++ [.action OpenSelectionAsLinkAction, .separator]
     else [])
    ++ (if testFlag flags c.MailMenu then
      [.action OpenLinkAction, .separator, .action CopyLinkToClipboardAction]
      ++ (if !testFlag flags c.ImageMenu then [.action InspectElementAction] else [])
      ++ [.separator]
     else if testFlag flags c.LinkMenu then
      [.action OpenLinkAction, .action OpenLinkInNewTabAction,
       .action OpenLinkInNewTabBackgroundAction, .separator,
       .action OpenLinkInNewWindowAction, .action OpenLinkInNewWindowBackgroundAction, .separator,
       .action BookmarkLinkAction, .action CopyLinkToClipboardAction, .separator,
       .action SaveLinkToDiskAction, .action SaveLinkToDownloadsAction]
      ++ (if !testFlag flags c.ImageMenu then [.action InspectElementAction] else [])
      ++ [.separator]
     else [])
    ++ (if testFlag flags c.ImageMenu then
      [.action OpenImageInNewTabAction, .action ReloadImageAction,
       .action CopyImageUrlToClipboardAction, .separator,
       .action SaveImageToDiskAction, .action CopyImageToClipboardAction, .separator,
       .action InspectElementAction, .action ImagePropertiesAction, .separator]
     else [])
    ++ (if testFlag flags c.MediaMenu then
      [.action CopyMediaUrlToClipboardAction, .action SaveMediaToDiskAction, .separator,
       .action MediaPlayPauseAction, .action MediaMuteAction, .action MediaLoopAction,
       .action MediaControlsAction, .separator,
       .action InspectElementAction, .separator]
     else [])

/-- One call adding an entry to the entries a `QMenu` holds. `QWidget::addAction`
first removes an action the widget already holds, so an action added again
moves to the end; `addSeparator` and `addMenu` add a new action each time. -/
def addEntry (menu : List MenuEntry) (entry : MenuEntry) : List MenuEntry :=
  match entry with
  | .action identifier =>
    menu.filter (fun e => e != MenuEntry.action identifier) ++ [.action identifier]
  | .separator => menu ++ [.separator]
  | .menu title items => menu ++ [.menu title items]

/-- The entries of the menu `WebWidget::showContextMenu` executes: its calls
applied in order to the empty menu. -/
def showContextMenu (c : MenuFlagValues) (flags : Nat) : List MenuEntry :=
  (showContextMenuCalls c flags).foldl addEntry []

/-! ## Concrete surroundings used to run the definitions -/

/-- Flag values with one bit each. -/
def sampleMenuFlags : MenuFlagValues :=
  { StandardMenu := 1, LinkMenu := 2, MailMenu := 4, ImageMenu := 8, MediaMenu := 16,
    SelectionMenu := 32, EditMenu := 64, FrameMenu := 128, FormMenu := 256 }

/-- Surroundings with empty global settings, one search engine, a view that is
not loading and timer identifiers counted up from 1. -/
def sampleExternals : Externals :=
  { getValue := fun _ _ => QVariant.invalid
    getUrl := "http://example.org/"
    isLoading := false
    getSearchEngine := fun id =>
      if id = "duckduckgo" then
        some { identifier := "duckduckgo", title := "DuckDuckGo", description := "" }
      else none
    getSearchEngines := ["duckduckgo"]
    calculateOpenHints := 0
    CurrentTabOpen := 1
    newTimerId := fun ts => (ts.map (fun t => t.id)).foldl max 0 + 1
    reloadTimeDialog := fun _ => none }

/-- The surroundings of `sampleExternals` with a view that is loading and a
global reload time of 60 seconds. -/
def loadingExternals : Externals :=
  { sampleExternals with
    isLoading := true
    getValue := fun key _ => if key = "Content/PageReloadTime" then QVariant.int 60 else QVariant.invalid }

/-! ## The option store -/

open WebWidget

theorem QVariantHash.lookup_filter_self (h : QVariantHash) (key : QString) :
    (h.filter (fun e => e.1 != key)).lookup key = none := by
  induction h with
  | nil => rfl
  | cons e t ih =>
    obtain ⟨k, v⟩ := e
    by_cases hk : k = key
    · subst hk; simpa [List.filter_cons] using ih
    · have hk2 : (key == k) = false := by simpa using fun h => hk h.symm
      simp [List.filter_cons, hk, List.lookup_cons, hk2, ih]

theorem QVariantHash.contains_remove_self (h : QVariantHash) (key : QString) :
    (h.remove key).contains key = false := by
  simp [QVariantHash.contains, QVariantHash.remove, QVariantHash.lookup_filter_self]

theorem QVariantHash.contains_insert_self (h : QVariantHash) (key : QString) (v : QVariant) :
    (h.insert key v).contains key = true := by
  simp [QVariantHash.contains, QVariantHash.insert, List.lookup_cons]

theorem QVariantHash.value_insert_self (h : QVariantHash) (key : QString) (v d : QVariant) :
    (h.insert key v).value key d = v := by
  simp [QVariantHash.value, QVariantHash.insert, List.lookup_cons]

theorem storeOption_spec (w : WebWidget) (key : QString) (value : QVariant) :
    ((w.storeOption key value).m_options.contains key = true ↔ value.isNull = false) ∧
    (value.isNull = false →
      (w.storeOption key value).m_options.value key QVariant.invalid = value) := by
  unfold storeOption
  cases hv : value.isNull
  · simp [QVariantHash.contains_insert_self, QVariantHash.value_insert_self]
  · simp [QVariantHash.contains_remove_self]

theorem updateQuickSearch_options (w : WebWidget) :
    w.updateQuickSearch.m_options = w.m_options := by
  unfold updateQuickSearch; cases w.m_quickSearchMenu <;> rfl

theorem storeOption_timers (w : WebWidget) (key : QString) (value : QVariant) :
    (w.storeOption key value).timers = w.timers ∧
    (w.storeOption key value).m_reloadTimer = w.m_reloadTimer := by
  unfold storeOption; split <;> simp

theorem hasOption_updateQuickSearch (w : WebWidget) (key : QString) :
    w.updateQuickSearch.hasOption key = w.hasOption key := by
  simp [hasOption, updateQuickSearch_options]

/-- C1 (as amended): `setOption(key, value)` returns without touching the view
when the key is "Search/DefaultQuickSearchEngine" and the value converts to the
same string as the stored entry (the empty string when absent), or the key is
"Content/PageReloadTime" and the value converts to the same int as the stored
entry (-1 when absent). In every other case the option set afterwards contains
the key exactly when the value is non-null, and then holds the value under it. -/
theorem setOption_stores_unless_unchanged (env : Externals) (w : WebWidget) (key : QString)
    (value : QVariant) :
    (((key = "Search/DefaultQuickSearchEngine" ∧
          value.toString =
            (w.m_options.value "Search/DefaultQuickSearchEngine" QVariant.invalid).toString) ∨
        (key = "Content/PageReloadTime" ∧
          value.toInt =
            (w.m_options.value "Content/PageReloadTime" (QVariant.int (-1))).toInt)) →
      w.setOption env key value = w) ∧
    (¬ ((key = "Search/DefaultQuickSearchEngine" ∧
          value.toString =
            (w.m_options.value "Search/DefaultQuickSearchEngine" QVariant.invalid).toString) ∨
        (key = "Content/PageReloadTime" ∧
          value.toInt =
            (w.m_options.value "Content/PageReloadTime" (QVariant.int (-1))).toInt)) →
      ((w.setOption env key value).hasOption key = true ↔ value.isNull = false) ∧
      (value.isNull = false →
        (w.setOption env key value).m_options.value key QVariant.invalid = value)) := by
  refine ⟨?_, ?_⟩
  · rintro (⟨hk, hv⟩ | ⟨hk, hv⟩)
    · subst hk
      simp [setOption, hv]
    · subst hk
      have hne : ("Content/PageReloadTime" : String) ≠ "Search/DefaultQuickSearchEngine" := by
        decide
      simp [setOption, hv, hne]
  · intro hskip
    have hq : key = "Search/DefaultQuickSearchEngine" →
        value.toString ≠
          (w.m_options.value "Search/DefaultQuickSearchEngine" QVariant.invalid).toString :=
      fun hk hv => hskip (Or.inl ⟨hk, hv⟩)
    have hr : key = "Content/PageReloadTime" →
        value.toInt ≠ (w.m_options.value "Content/PageReloadTime" (QVariant.int (-1))).toInt :=
      fun hk hv => hskip (Or.inr ⟨hk, hv⟩)
    unfold setOption
    by_cases hk1 : key = "Search/DefaultQuickSearchEngine"
    · simp only [hk1, if_true]
      rw [if_pos (by simpa [hk1] using hq hk1)]
      rw [hasOption_updateQuickSearch, updateQuickSearch_options]
      simpa [hasOption, hk1] using storeOption_spec w "Search/DefaultQuickSearchEngine" value
    · simp only [hk1, if_false]
      by_cases hk2 : key = "Content/PageReloadTime"
      · simp only [hk2, if_true]
        rw [if_neg (by simpa [hk2] using hr hk2)]
        simp only [hasOption]
        exact storeOption_spec _ _ _
      · simp only [hk2, if_false, hasOption]
        exact storeOption_spec _ _ _

/-- Witness for C1: a changed reload time and an unchanged one. -/
theorem setOption_stores_unless_unchanged_witness :
    (WebWidget.new.setOption sampleExternals "Content/PageReloadTime" (QVariant.int (-1))
        = WebWidget.new) ∧
    ((WebWidget.new.setOption sampleExternals "Content/PageReloadTime" (QVariant.int 5)).hasOption
        "Content/PageReloadTime" = true ↔ (QVariant.int 5).isNull = false) :=
  ⟨(setOption_stores_unless_unchanged sampleExternals WebWidget.new "Content/PageReloadTime"
      (QVariant.int (-1))).1 (Or.inr ⟨rfl, by decide⟩),
   ((setOption_stores_unless_unchanged sampleExternals WebWidget.new "Content/PageReloadTime"
      (QVariant.int 5)).2 (by decide)).1⟩

/-- C1 fails as stated for both special keys. On a view without options,
storing the non-null value -1 under "Content/PageReloadTime" leaves the option
set without that key; and with the string "5" stored under
"Search/DefaultQuickSearchEngine", storing the non-null int 5 under that key
leaves the string in place, so the stored entry is not the value. -/
theorem setOption_special_keys_not_stored :
    ¬ ((WebWidget.new.setOption sampleExternals "Content/PageReloadTime"
          (QVariant.int (-1))).hasOption "Content/PageReloadTime" = true ↔
        (QVariant.int (-1)).isNull = false) ∧
    ¬ ((QVariant.int 5).isNull = false →
        ((WebWidget.new.setOption sampleExternals "Search/DefaultQuickSearchEngine"
            (QVariant.string "5")).setOption sampleExternals "Search/DefaultQuickSearchEngine"
            (QVariant.int 5)).m_options.value "Search/DefaultQuickSearchEngine"
          QVariant.invalid = QVariant.int 5) := by
  decide

/-! ## The reload timer -/

theorem QVariant.toInt_int (n : Int) : (QVariant.int n).toInt = n := rfl

theorem QVariant.isNull_int (n : Int) : (QVariant.int n).isNull = false := rfl

theorem killTimer_timers_sublist (w : WebWidget) (id : Int) :
    (w.killTimer id).timers.Sublist w.timers := by
  simp [killTimer]

theorem killTimer_not_running (w : WebWidget) (id : Int) :
    ∀ t ∈ (w.killTimer id).timers, t.id ≠ id := by
  intro t ht
  simpa [killTimer] using (List.mem_filter.mp ht).2

/-- C2 (as amended): when the stored "Content/PageReloadTime" entry (-1 when
absent) does not convert to 0, `setOption("Content/PageReloadTime", 0)` leaves
`m_reloadTimer` at 0, has killed the timer recorded there, starts no timer (the
running timers are a sublist of the earlier ones) and stores 0; so no timer is
left when the recorded one was the only one running. When the stored entry
already converts to 0 the call returns early and changes nothing. -/
theorem setOption_reloadTime_zero (env : Externals) (w : WebWidget) :
    ((w.m_options.value "Content/PageReloadTime" (QVariant.int (-1))).toInt ≠ 0 →
      (w.setOption env "Content/PageReloadTime" (QVariant.int 0)).m_reloadTimer = 0 ∧
      (w.m_reloadTimer ≠ 0 →
        ∀ t ∈ (w.setOption env "Content/PageReloadTime" (QVariant.int 0)).timers,
          t.id ≠ w.m_reloadTimer) ∧
      (w.setOption env "Content/PageReloadTime" (QVariant.int 0)).timers.Sublist w.timers ∧
      ((∀ t ∈ w.timers, t.id = w.m_reloadTimer ∧ t.id ≠ 0) →
        (w.setOption env "Content/PageReloadTime" (QVariant.int 0)).timers = []) ∧
      (w.setOption env "Content/PageReloadTime" (QVariant.int 0)).m_options.value
        "Content/PageReloadTime" (QVariant.int (-1)) = QVariant.int 0) ∧
    ((w.m_options.value "Content/PageReloadTime" (QVariant.int (-1))).toInt = 0 →
      w.setOption env "Content/PageReloadTime" (QVariant.int 0) = w) := by
  have hne : ("Content/PageReloadTime" : String) ≠ "Search/DefaultQuickSearchEngine" := by
    decide
  refine ⟨fun h0 => ?_, fun h0 => ?_⟩
  · have h0' : ¬ (0 : Int) =
        (w.m_options.value "Content/PageReloadTime" (QVariant.int (-1))).toInt :=
      fun h => h0 h.symm
    have hset : w.setOption env "Content/PageReloadTime" (QVariant.int 0) =
        ((if w.m_reloadTimer ≠ 0 then { w.killTimer w.m_reloadTimer with m_reloadTimer := 0 }
          else w).triggerAction ActionIdentifier.StopScheduledReloadAction).storeOption
          "Content/PageReloadTime" (QVariant.int 0) := by
      simp [setOption, hne, QVariant.toInt_int, h0']
    rw [hset]
    by_cases hr : w.m_reloadTimer = 0
    · rw [if_neg (not_not.mpr hr)]
      refine ⟨by simp [storeOption, QVariant.isNull, triggerAction, hr], fun h => absurd hr h,
        by simp [storeOption, QVariant.isNull, triggerAction], ?_,
        by simp [storeOption, QVariant.isNull, QVariantHash.value_insert_self]⟩
      intro hall
      cases hts : w.timers with
      | nil => simp [storeOption, QVariant.isNull, triggerAction, hts]
      | cons t ts =>
        have := hall t (by simp [hts])
        exact absurd (this.1.trans hr) this.2
    · rw [if_pos hr]
      refine ⟨by simp [storeOption, QVariant.isNull, triggerAction], fun _ => ?_, ?_, ?_,
        by simp [storeOption, QVariant.isNull, QVariantHash.value_insert_self]⟩
      · simpa [storeOption, QVariant.isNull, triggerAction] using
          killTimer_not_running w w.m_reloadTimer
      · simpa [storeOption, QVariant.isNull, triggerAction] using
          killTimer_timers_sublist w w.m_reloadTimer
      · intro hall
        simp only [storeOption, QVariant.isNull, triggerAction, killTimer]
        simp only [Bool.false_eq_true, if_false]
        apply List.filter_eq_nil_iff.mpr
        intro t ht
        simp [(hall t ht).1]
  · simp [setOption, hne, QVariant.toInt_int, h0]

/-- Witness for C2: a view whose timer was armed by a reload time of 5 seconds. -/
theorem setOption_reloadTime_zero_witness :
    ((WebWidget.new.setOption sampleExternals "Content/PageReloadTime"
        (QVariant.int 5)).setOption sampleExternals "Content/PageReloadTime"
        (QVariant.int 0)).m_reloadTimer = 0 :=
  ((setOption_reloadTime_zero sampleExternals
      (WebWidget.new.setOption sampleExternals "Content/PageReloadTime" (QVariant.int 5))).1
    (by decide)).1

/-- C2 fails as stated: after a timer was armed for 5 seconds and the option set
was replaced by one holding the reload time 0, `setOption` with 0 returns early
and timer 1 keeps running, still recorded in `m_reloadTimer`. -/
theorem setOption_reloadTime_zero_keeps_timer :
    (((WebWidget.new.setOption sampleExternals "Content/PageReloadTime"
          (QVariant.int 5)).setOptions [("Content/PageReloadTime", QVariant.int 0)]).setOption
        sampleExternals "Content/PageReloadTime" (QVariant.int 0)).m_reloadTimer = 1 ∧
    (((WebWidget.new.setOption sampleExternals "Content/PageReloadTime"
          (QVariant.int 5)).setOptions [("Content/PageReloadTime", QVariant.int 0)]).setOption
        sampleExternals "Content/PageReloadTime" (QVariant.int 0)).timers =
      [{ id := 1, interval := 5000 }] := by
  decide

theorem setOption_reloadTime_stored (env : Externals) (w : WebWidget) (v : Int) :
    ((w.setOption env "Content/PageReloadTime" (QVariant.int v)).m_options.value
      "Content/PageReloadTime" (QVariant.int (-1))).toInt = v := by
  have hne : ("Content/PageReloadTime" : String) ≠ "Search/DefaultQuickSearchEngine" := by
    decide
  by_cases h : v = (w.m_options.value "Content/PageReloadTime" (QVariant.int (-1))).toInt
  · have hset : w.setOption env "Content/PageReloadTime" (QVariant.int v) = w := by
      simp only [setOption, hne, if_false, if_true, QVariant.toInt_int]
      rw [if_pos h]
    rw [hset]; exact h.symm
  · simp only [setOption, hne, if_false, if_true, QVariant.toInt_int]
    rw [if_neg h]
    simp [storeOption, QVariant.isNull_int, QVariantHash.value_insert_self, QVariant.toInt_int]

/-- C3: a second `setOption("Content/PageReloadTime", v)` with the same int v
changes nothing, whatever happened to the timers in between: in every state
whose option set is the one the first call left, the second call returns the
state it was given (same `m_reloadTimer`, same running timers, no call made). -/
theorem setOption_reloadTime_twice (env env2 : Externals) (w w1 : WebWidget) (v : Int)
    (h : w1.m_options = (w.setOption env "Content/PageReloadTime" (QVariant.int v)).m_options) :
    w1.setOption env2 "Content/PageReloadTime" (QVariant.int v) = w1 := by
  have hne : ("Content/PageReloadTime" : String) ≠ "Search/DefaultQuickSearchEngine" := by
    decide
  have hv := setOption_reloadTime_stored env w v
  rw [← h] at hv
  simp only [setOption, hne, if_false, if_true, QVariant.toInt_int]
  rw [if_pos hv.symm]

/-- Witness for C3: the timer armed by the first call (5 seconds, id 1) has
fired before the second call. -/
theorem setOption_reloadTime_twice_witness :
    ((WebWidget.new.setOption sampleExternals "Content/PageReloadTime"
        (QVariant.int 5)).timerEvent sampleExternals 1).setOption sampleExternals
        "Content/PageReloadTime" (QVariant.int 5) =
      (WebWidget.new.setOption sampleExternals "Content/PageReloadTime"
        (QVariant.int 5)).timerEvent sampleExternals 1 :=
  setOption_reloadTime_twice sampleExternals sampleExternals WebWidget.new
    ((WebWidget.new.setOption sampleExternals "Content/PageReloadTime"
        (QVariant.int 5)).timerEvent sampleExternals 1) 5 (by decide)

/-- C4: in every view state (so in every one with a reload timer armed), a timer
event carrying the id recorded in `m_reloadTimer` kills that timer and resets
`m_reloadTimer` to 0 whether or not the view is loading, and calls
`triggerAction(ReloadAction)` exactly when it is not loading; an event with
another id returns the state unchanged. -/
theorem timerEvent_spec (env : Externals) (w : WebWidget) (timerId : Int) :
    (timerId = w.m_reloadTimer →
      (w.timerEvent env timerId).m_reloadTimer = 0 ∧
      (∀ t ∈ (w.timerEvent env timerId).timers, t.id ≠ timerId) ∧
      (w.timerEvent env timerId).timers = w.timers.filter (fun t => t.id != timerId) ∧
      (w.timerEvent env timerId).triggered =
        w.triggered ++ (if env.isLoading then [] else [ActionIdentifier.ReloadAction]) ∧
      (env.isLoading = true → (w.timerEvent env timerId).triggered = w.triggered) ∧
      (w.timerEvent env timerId).m_options = w.m_options) ∧
    (timerId ≠ w.m_reloadTimer → w.timerEvent env timerId = w) := by
  refine ⟨fun hid => ?_, fun hid => ?_⟩
  · subst hid
    cases hl : env.isLoading
    · refine ⟨?_, ?_, ?_, ?_, ?_, ?_⟩
      · simp [timerEvent, hl, triggerAction]
      · simpa [timerEvent, hl, triggerAction] using killTimer_not_running w w.m_reloadTimer
      · simp [timerEvent, hl, triggerAction, killTimer]
      · simp [timerEvent, hl, triggerAction, killTimer]
      · intro h; cases h
      · simp [timerEvent, hl, triggerAction, killTimer]
    · refine ⟨?_, ?_, ?_, ?_, ?_, ?_⟩
      · simp [timerEvent, hl]
      · simpa [timerEvent, hl] using killTimer_not_running w w.m_reloadTimer
      · simp [timerEvent, hl, killTimer]
      · simp [timerEvent, hl, killTimer]
      · intro _; simp [timerEvent, hl, killTimer]
      · simp [timerEvent, hl, killTimer]
  · simp [timerEvent, hid]

/-- Witness for C4: the timer armed for 5 seconds fires while the view is loading. -/
theorem timerEvent_spec_witness :
    ((WebWidget.new.setOption sampleExternals "Content/PageReloadTime"
        (QVariant.int 5)).timerEvent loadingExternals 1).m_reloadTimer = 0 ∧
    ((WebWidget.new.setOption sampleExternals "Content/PageReloadTime"
        (QVariant.int 5)).timerEvent loadingExternals 1).triggered =
      (WebWidget.new.setOption sampleExternals "Content/PageReloadTime"
        (QVariant.int 5)).triggered :=
  ⟨((timerEvent_spec loadingExternals
      (WebWidget.new.setOption sampleExternals "Content/PageReloadTime" (QVariant.int 5)) 1).1
      (by decide)).1,
   ((timerEvent_spec loadingExternals
      (WebWidget.new.setOption sampleExternals "Content/PageReloadTime" (QVariant.int 5)) 1).1
      (by decide)).2.2.2.2.1 rfl⟩

/-! ## Option lookup and quick search -/

/-- C5: `getOption(key, url)` returns the local entry when the option set
contains the key, whatever the settings manager holds; otherwise it returns
`SettingsManager::getValue(key, u)` with u the given url when that is not empty
and the current URL of the view when it is. -/
theorem getOption_spec (env : Externals) (w : WebWidget) (key : QString) (url : QUrl) :
    (∀ v, w.m_options.lookup key = some v → w.getOption env key url = v) ∧
    (w.hasOption key = true →
      w.getOption env key url = w.m_options.value key QVariant.invalid) ∧
    (w.hasOption key = false → url.isEmpty = false →
      w.getOption env key url = env.getValue key url) ∧
    (w.hasOption key = false → url.isEmpty = true →
      w.getOption env key url = env.getValue key env.getUrl) := by
  refine ⟨fun v hv => ?_, fun h => ?_, fun h hu => ?_, fun h hu => ?_⟩
  · simp [getOption, QVariantHash.contains, QVariantHash.value, hv]
  · simp only [hasOption] at h
    simp [getOption, h]
  · simp only [hasOption] at h
    simp [getOption, h, hu]
  · simp only [hasOption] at h
    simp [getOption, h, hu]

/-- Witness for C5: a local reload time of 5 overrides the global 60; without
it the global value for the current URL is returned. -/
theorem getOption_spec_witness :
    (WebWidget.new.setOptions [("Content/PageReloadTime", QVariant.int 5)]).getOption
        loadingExternals "Content/PageReloadTime" "" = QVariant.int 5 ∧
    WebWidget.new.getOption loadingExternals "Content/PageReloadTime" "" =
      loadingExternals.getValue "Content/PageReloadTime" loadingExternals.getUrl :=
  ⟨(getOption_spec loadingExternals
      (WebWidget.new.setOptions [("Content/PageReloadTime", QVariant.int 5)])
      "Content/PageReloadTime" "").1 (QVariant.int 5) (by decide),
   (getOption_spec loadingExternals WebWidget.new "Content/PageReloadTime" "").2.2.2
      (by decide) rfl⟩

/-- C6: when the search-engine registry has no engine for the identifier taken
from the action (the empty string for a null action or for data that is not a
string), `quickSearch` returns the state it was given: the option set is
unchanged, `search` is not called and `requestedSearch` is not emitted. -/
theorem quickSearch_unknown_engine (env : Externals) (w : WebWidget) (action : Option QAction)
    (h : env.getSearchEngine
        (match action with
          | none => ""
          | some a => if a.data.type ≠ QVariantType.String then "" else a.data.toString) = none) :
    w.quickSearch env action = w ∧
    (w.quickSearch env action).m_options = w.m_options ∧
    (w.quickSearch env action).searched = w.searched ∧
    (w.quickSearch env action).requestedSearch = w.requestedSearch := by
  have hq : w.quickSearch env action = w := by
    unfold quickSearch
    simp only [h]
  simp [hq]

/-- Witness for C6: an action naming an engine the registry does not know. -/
theorem quickSearch_unknown_engine_witness :
    (WebWidget.new.quickSearch sampleExternals
        (some { text := "Gone", data := QVariant.string "gone", toolTip := "",
                isSeparator := false, checkable := false, checked := false }) = WebWidget.new) :=
  (quickSearch_unknown_engine sampleExternals WebWidget.new
    (some { text := "Gone", data := QVariant.string "gone", toolTip := "",
            isSeparator := false, checkable := false, checked := false }) (by decide)).1

/-! ## The context menu -/

theorem testFlag_self (x : Nat) (h : x ≠ 0) : testFlag x x = true := by
  simp [testFlag, h]

theorem testFlag_of_disjoint (x y : Nat) (h : x &&& y = 0) : testFlag x y = false := by
  simp [testFlag, h]

theorem testFlag_of_disjoint_symm (x y : Nat) (h : y &&& x = 0) : testFlag x y = false := by
  simp [testFlag, Nat.and_comm x y, h]

theorem nat_or_eq_zero (a b : Nat) : a ||| b = 0 ↔ a = 0 ∧ b = 0 := by
  constructor
  · intro h
    have hbit : ∀ i, a.testBit i = false ∧ b.testBit i = false := by
      intro i
      have := congrArg (fun n => Nat.testBit n i) h
      simpa [Nat.testBit_or] using this
    exact ⟨Nat.eq_of_testBit_eq (fun i => by simp [(hbit i).1]),
      Nat.eq_of_testBit_eq (fun i => by simp [(hbit i).2])⟩
  · rintro ⟨rfl, rfl⟩; rfl

theorem testFlag_or (x y z : Nat) : testFlag (x ||| y) z = (testFlag x z || testFlag y z) := by
  have hd : (x ||| y) &&& z = (x &&& z) ||| (y &&& z) := by
    rw [Nat.and_comm, Nat.and_or_distrib_left, Nat.and_comm z x, Nat.and_comm z y]
  simp only [testFlag, hd]
  rw [Bool.eq_iff_iff]
  simp only [bne_iff_ne, ne_eq, Bool.or_eq_true, nat_or_eq_zero]
  tauto

/-- C7: with flag values that are non-zero and pairwise disjoint, the entries
composed for flags equal to ImageMenu alone are the image section only: no
edit-section action, no selection-section action, no link- or mail-section
action, and InspectElementAction exactly once. -/
theorem showContextMenu_image_only (c : MenuFlagValues) (hc : c.Valid) :
    showContextMenu c c.ImageMenu =
      [.action .OpenImageInNewTabAction, .action .ReloadImageAction,
       .action .CopyImageUrlToClipboardAction, .separator,
       .action .SaveImageToDiskAction, .action .CopyImageToClipboardAction, .separator,
       .action .InspectElementAction, .action .ImagePropertiesAction, .separator] ∧
    (∀ a ∈ [ActionIdentifier.UndoAction, .RedoAction, .CutAction, .PasteAction, .DeleteAction,
            .SelectAllAction, .ClearAllAction, .CheckSpellingAction, .CreateSearchAction],
      MenuEntry.action a ∉ showContextMenu c c.ImageMenu) ∧
    (∀ a ∈ [ActionIdentifier.SearchAction, .SearchMenuAction, .CopyAction,
            .OpenSelectionAsLinkAction],
      MenuEntry.action a ∉ showContextMenu c c.ImageMenu) ∧
    (∀ a ∈ [ActionIdentifier.OpenLinkAction, .OpenLinkInNewTabAction,
            .OpenLinkInNewTabBackgroundAction, .OpenLinkInNewWindowAction,
            .OpenLinkInNewWindowBackgroundAction, .BookmarkLinkAction,
            .CopyLinkToClipboardAction, .SaveLinkToDiskAction, .SaveLinkToDownloadsAction],
      MenuEntry.action a ∉ showContextMenu c c.ImageMenu) ∧
    (showContextMenu c c.ImageMenu).count (.action .InspectElementAction) = 1 := by
  obtain ⟨hnz, hpw⟩ := hc
  simp only [MenuFlagValues.all, List.pairwise_cons, List.mem_cons, List.mem_singleton,
    forall_eq_or_imp, forall_eq, List.not_mem_nil, false_implies, implies_true, and_true,
    List.Pairwise.nil] at hnz hpw
  have hlist : showContextMenu c c.ImageMenu =
      [.action .OpenImageInNewTabAction, .action .ReloadImageAction,
       .action .CopyImageUrlToClipboardAction, .separator,
       .action .SaveImageToDiskAction, .action .CopyImageToClipboardAction, .separator,
       .action .InspectElementAction, .action .ImagePropertiesAction, .separator] := by
    have h1 : testFlag c.ImageMenu c.StandardMenu = false :=
      testFlag_of_disjoint_symm _ _ (by tauto)
    have h2 : testFlag c.ImageMenu c.EditMenu = false := testFlag_of_disjoint _ _ (by tauto)
    have h3 : testFlag c.ImageMenu c.SelectionMenu = false := testFlag_of_disjoint _ _ (by tauto)
    have h4 : testFlag c.ImageMenu c.MailMenu = false :=
      testFlag_of_disjoint_symm _ _ (by tauto)
    have h5 : testFlag c.ImageMenu c.LinkMenu = false :=
      testFlag_of_disjoint_symm _ _ (by tauto)
    have h6 : testFlag c.ImageMenu c.MediaMenu = false := testFlag_of_disjoint _ _ (by tauto)
    have h7 : testFlag c.ImageMenu c.ImageMenu = true := testFlag_self _ (by tauto)
    simp [showContextMenu, showContextMenuCalls, addEntry, h1, h2, h3, h4, h5, h6, h7]
  rw [hlist]
  refine ⟨rfl, ?_, ?_, ?_, ?_⟩ <;> decide

/-- Witness for C7: the one-bit flag values 1, 2, 4, ..., 256. -/
theorem showContextMenu_image_only_witness :
    (showContextMenu sampleMenuFlags sampleMenuFlags.ImageMenu).count
      (.action .InspectElementAction) = 1 :=
  (showContextMenu_image_only sampleMenuFlags (by decide)).2.2.2.2

theorem not_exactly_edit_of_mail_or_link (c : MenuFlagValues) (hc : c.Valid) (flags : Nat)
    (hml : testFlag flags c.MailMenu = true ∨ testFlag flags c.LinkMenu = true) :
    ¬ (flags = c.EditMenu ∨ flags = (c.EditMenu ||| c.FormMenu)) := by
  obtain ⟨hnz, hpw⟩ := hc
  simp only [MenuFlagValues.all, List.pairwise_cons, List.mem_cons, List.mem_singleton,
    forall_eq_or_imp, forall_eq, List.not_mem_nil, false_implies, implies_true, and_true,
    List.Pairwise.nil] at hnz hpw
  have e1 : testFlag c.EditMenu c.MailMenu = false := testFlag_of_disjoint_symm _ _ (by tauto)
  have e2 : testFlag c.EditMenu c.LinkMenu = false := testFlag_of_disjoint_symm _ _ (by tauto)
  have f1 : testFlag c.FormMenu c.MailMenu = false := testFlag_of_disjoint_symm _ _ (by tauto)
  have f2 : testFlag c.FormMenu c.LinkMenu = false := testFlag_of_disjoint_symm _ _ (by tauto)
  rintro (h | h) <;> subst h <;> simp [testFlag_or, e1, e2, f1, f2] at hml

/-- C9: with flag values that are non-zero and pairwise disjoint, for every
flag set without StandardMenu that has MailMenu or LinkMenu set, the executed
menu holds exactly one of the two sections as one block: the mail section when
MailMenu is set (also when LinkMenu is set too), the link section otherwise;
no link or mail action stands outside that block. The block has no
inspect-element entry whenever ImageMenu or MediaMenu is set, and then the
entries after it, those of the image and media sections, hold
InspectElementAction exactly once; with neither flag set the block ends with
the inspect-element entry and no other entry of the menu is one. -/
theorem showContextMenu_mail_link_section (c : MenuFlagValues) (hc : c.Valid) (flags : Nat)
    (hstd : testFlag flags c.StandardMenu = false)
    (hml : testFlag flags c.MailMenu = true ∨ testFlag flags c.LinkMenu = true) :
    ∃ before after : List MenuEntry,
      showContextMenu c flags =
        before ++
        (if testFlag flags c.MailMenu then
          [.action .OpenLinkAction, .separator, .action .CopyLinkToClipboardAction] ++
          (if testFlag flags c.ImageMenu || testFlag flags c.MediaMenu then []
            else [.action .InspectElementAction]) ++
          [.separator]
        else
          [.action .OpenLinkAction, .action .OpenLinkInNewTabAction,
           .action .OpenLinkInNewTabBackgroundAction, .separator,
           .action .OpenLinkInNewWindowAction, .action .OpenLinkInNewWindowBackgroundAction,
           .separator,
           .action .BookmarkLinkAction, .action .CopyLinkToClipboardAction, .separator,
           .action .SaveLinkToDiskAction, .action .SaveLinkToDownloadsAction] ++
          (if testFlag flags c.ImageMenu || testFlag flags c.MediaMenu then []
            else [.action .InspectElementAction]) ++
          [.separator]) ++
        after ∧
      (∀ a ∈ [ActionIdentifier.OpenLinkAction, .OpenLinkInNewTabAction,
              .OpenLinkInNewTabBackgroundAction, .OpenLinkInNewWindowAction,
              .OpenLinkInNewWindowBackgroundAction, .BookmarkLinkAction,
              .CopyLinkToClipboardAction, .SaveLinkToDiskAction, .SaveLinkToDownloadsAction],
        MenuEntry.action a ∉ before ∧ MenuEntry.action a ∉ after) ∧
      MenuEntry.action .InspectElementAction ∉ before ∧
      after.count (.action .InspectElementAction) =
        (if testFlag flags c.ImageMenu || testFlag flags c.MediaMenu then 1 else 0) := by
  have hP := not_exactly_edit_of_mail_or_link c hc flags hml
  refine ⟨
    (if testFlag flags c.EditMenu then
      [.action .UndoAction, .action .RedoAction, .separator,
       .action .CutAction, .action .CopyAction, .action .PasteAction, .action .DeleteAction,
       .separator,
       .action .SelectAllAction, .action .ClearAllAction, .separator]
      ++ (if testFlag flags c.FormMenu then [.action .CreateSearchAction, .separator] else [])
      ++ [.action .CheckSpellingAction, .separator]
     else [])
    ++ (if testFlag flags c.SelectionMenu then
      [.action .SearchAction, .action .SearchMenuAction, .separator]
      ++ (if !testFlag flags c.EditMenu then [.action .CopyAction, .separator] else [])
      ++ [.action .OpenSelectionAsLinkAction, .separator]
     else []),
    (if testFlag flags c.ImageMenu then
      [.action .OpenImageInNewTabAction, .action .ReloadImageAction,
       .action .CopyImageUrlToClipboardAction, .separator,
       .action .SaveImageToDiskAction, .action .CopyImageToClipboardAction, .separator]
      ++ (if testFlag flags c.MediaMenu then [] else [.action .InspectElementAction])
      ++ [.action .ImagePropertiesAction, .separator]
     else [])
    ++ (if testFlag flags c.MediaMenu then
      [.action .CopyMediaUrlToClipboardAction, .action .SaveMediaToDiskAction, .separator,
       .action .MediaPlayPauseAction, .action .MediaMuteAction, .action .MediaLoopAction,
       .action .MediaControlsAction, .separator,
       .action .InspectElementAction, .separator]
     else []), ?_, ?_, ?_, ?_⟩
  · simp only [showContextMenu, showContextMenuCalls, hstd, hP, if_false, Bool.false_eq_true]
    generalize testFlag flags c.EditMenu = e at *
    generalize testFlag flags c.FormMenu = f at *
    generalize testFlag flags c.SelectionMenu = s at *
    generalize testFlag flags c.MailMenu = m at *
    generalize testFlag flags c.LinkMenu = l at *
    generalize testFlag flags c.ImageMenu = i at *
    generalize testFlag flags c.MediaMenu = d at *
    clear hP hstd hc
    revert hml
    revert e f s m l i d
    decide
  · generalize testFlag flags c.EditMenu = e
    generalize testFlag flags c.FormMenu = f
    generalize testFlag flags c.SelectionMenu = s
    generalize testFlag flags c.ImageMenu = i
    generalize testFlag flags c.MediaMenu = d
    revert e f s i d
    decide
  · generalize testFlag flags c.EditMenu = e
    generalize testFlag flags c.FormMenu = f
    generalize testFlag flags c.SelectionMenu = s
    revert e f s
    decide
  · generalize testFlag flags c.ImageMenu = i
    generalize testFlag flags c.MediaMenu = d
    revert i d
    decide

/-- Witness for C9: the one-bit flag values with LinkMenu | MediaMenu = 18. The
link section stands without an inspect-element entry and the entries after
it hold InspectElementAction once. -/
theorem showContextMenu_mail_link_section_witness :
    ∃ before after : List MenuEntry,
      showContextMenu sampleMenuFlags (sampleMenuFlags.LinkMenu ||| sampleMenuFlags.MediaMenu) =
        before ++
        [.action .OpenLinkAction, .action .OpenLinkInNewTabAction,
         .action .OpenLinkInNewTabBackgroundAction, .separator,
         .action .OpenLinkInNewWindowAction, .action .OpenLinkInNewWindowBackgroundAction,
         .separator,
         .action .BookmarkLinkAction, .action .CopyLinkToClipboardAction, .separator,
         .action .SaveLinkToDiskAction, .action .SaveLinkToDownloadsAction, .separator] ++
        after ∧
      after.count (.action .InspectElementAction) = 1 :=
  let ⟨before, after, hmenu, _, _, hcount⟩ :=
    showContextMenu_mail_link_section sampleMenuFlags (by decide)
      (sampleMenuFlags.LinkMenu ||| sampleMenuFlags.MediaMenu) (by decide) (by decide)
  ⟨before, after, hmenu, hcount⟩

/-- The menu executed for LinkMenu | MediaMenu with the one-bit flag values:
the inspect-element entry added by the link section has moved to the place
where the media section adds it again. -/
theorem showContextMenu_link_media_sample :
    showContextMenu sampleMenuFlags (sampleMenuFlags.LinkMenu ||| sampleMenuFlags.MediaMenu) =
      [.action .OpenLinkAction, .action .OpenLinkInNewTabAction,
       .action .OpenLinkInNewTabBackgroundAction, .separator,
       .action .OpenLinkInNewWindowAction, .action .OpenLinkInNewWindowBackgroundAction,
       .separator,
       .action .BookmarkLinkAction, .action .CopyLinkToClipboardAction, .separator,
       .action .SaveLinkToDiskAction, .action .SaveLinkToDownloadsAction, .separator,
       .action .CopyMediaUrlToClipboardAction, .action .SaveMediaToDiskAction, .separator,
       .action .MediaPlayPauseAction, .action .MediaMuteAction, .action .MediaLoopAction,
       .action .MediaControlsAction, .separator,
       .action .InspectElementAction, .separator] ∧
    (showContextMenuCalls sampleMenuFlags
        (sampleMenuFlags.LinkMenu ||| sampleMenuFlags.MediaMenu)).count
      (.action .InspectElementAction) = 2 := by
  decide

/-- The link section next to the image section: with LinkMenu | ImageMenu the
link section has no inspect-element entry and InspectElementAction stands
once, in the image section. -/
theorem showContextMenu_link_image (c : MenuFlagValues) (hc : c.Valid) :
    showContextMenu c (c.LinkMenu ||| c.ImageMenu) =
      [.action .OpenLinkAction, .action .OpenLinkInNewTabAction,
       .action .OpenLinkInNewTabBackgroundAction, .separator,
       .action .OpenLinkInNewWindowAction, .action .OpenLinkInNewWindowBackgroundAction,
       .separator,
       .action .BookmarkLinkAction, .action .CopyLinkToClipboardAction, .separator,
       .action .SaveLinkToDiskAction, .action .SaveLinkToDownloadsAction, .separator,
       .action .OpenImageInNewTabAction, .action .ReloadImageAction,
       .action .CopyImageUrlToClipboardAction, .separator,
       .action .SaveImageToDiskAction, .action .CopyImageToClipboardAction, .separator,
       .action .InspectElementAction, .action .ImagePropertiesAction, .separator] := by
  obtain ⟨hnz, hpw⟩ := hc
  simp only [MenuFlagValues.all, List.pairwise_cons, List.mem_cons, List.mem_singleton,
    forall_eq_or_imp, forall_eq, List.not_mem_nil, false_implies, implies_true, and_true,
    List.Pairwise.nil] at hnz hpw
  have l1 : testFlag c.LinkMenu c.StandardMenu = false :=
    testFlag_of_disjoint_symm _ _ (by tauto)
  have l2 : testFlag c.LinkMenu c.EditMenu = false := testFlag_of_disjoint _ _ (by tauto)
  have l3 : testFlag c.LinkMenu c.SelectionMenu = false := testFlag_of_disjoint _ _ (by tauto)
  have l4 : testFlag c.LinkMenu c.MailMenu = false := testFlag_of_disjoint _ _ (by tauto)
  have l5 : testFlag c.LinkMenu c.LinkMenu = true := testFlag_self _ (by tauto)
  have l7 : testFlag c.LinkMenu c.MediaMenu = false := testFlag_of_disjoint _ _ (by tauto)
  have i1 : testFlag c.ImageMenu c.StandardMenu = false :=
    testFlag_of_disjoint_symm _ _ (by tauto)
  have i2 : testFlag c.ImageMenu c.EditMenu = false := testFlag_of_disjoint _ _ (by tauto)
  have i3 : testFlag c.ImageMenu c.SelectionMenu = false := testFlag_of_disjoint _ _ (by tauto)
  have i4 : testFlag c.ImageMenu c.MailMenu = false := testFlag_of_disjoint_symm _ _ (by tauto)
  have i6 : testFlag c.ImageMenu c.ImageMenu = true := testFlag_self _ (by tauto)
  have i7 : testFlag c.ImageMenu c.MediaMenu = false := testFlag_of_disjoint _ _ (by tauto)
  simp [showContextMenu, showContextMenuCalls, addEntry, testFlag_or,
    l1, l2, l3, l4, l5, l7, i1, i2, i3, i4, i6, i7]

/-! ## Timers left running, and the reload-time menu -/

/-- C8, evaluated on a new view after `setOption("Content/PageReloadTime", 5)`
followed by `startReloadTimer()`: when the toolkit hands out a second timer id
different from the first, both timers run afterwards and only the second is
recorded in `m_reloadTimer`; `startReloadTimer` armed a timer without killing
the one armed before. -/
theorem startReloadTimer_keeps_earlier_timer (env : Externals)
    (hfresh : env.newTimerId [{ id := env.newTimerId [], interval := 5000 }] ≠
      env.newTimerId []) :
    ((WebWidget.new.setOption env "Content/PageReloadTime" (QVariant.int 5)).startReloadTimer
        env).timers =
      [{ id := env.newTimerId [], interval := 5000 },
       { id := env.newTimerId [{ id := env.newTimerId [], interval := 5000 }],
         interval := 5000 }] ∧
    ((WebWidget.new.setOption env "Content/PageReloadTime" (QVariant.int 5)).startReloadTimer
        env).m_reloadTimer = env.newTimerId [{ id := env.newTimerId [], interval := 5000 }] ∧
    (∃ t ∈ ((WebWidget.new.setOption env "Content/PageReloadTime"
          (QVariant.int 5)).startReloadTimer env).timers,
      t.id ≠ ((WebWidget.new.setOption env "Content/PageReloadTime"
          (QVariant.int 5)).startReloadTimer env).m_reloadTimer) := by
  have hne : ("Content/PageReloadTime" : String) ≠ "Search/DefaultQuickSearchEngine" := by
    decide
  have hset : WebWidget.new.setOption env "Content/PageReloadTime" (QVariant.int 5) =
      { WebWidget.new with
        m_options := [("Content/PageReloadTime", QVariant.int 5)]
        m_reloadTimer := env.newTimerId []
        timers := [{ id := env.newTimerId [], interval := 5000 }]
        triggered := [ActionIdentifier.StopScheduledReloadAction] } := by
    simp [setOption, hne, WebWidget.new, QVariantHash.value, QVariant.toInt_int, triggerAction,
      startTimer, storeOption, QVariant.isNull_int, QVariantHash.insert, wrapInt32]
  have hstart : (WebWidget.new.setOption env "Content/PageReloadTime"
        (QVariant.int 5)).startReloadTimer env =
      { WebWidget.new with
        m_options := [("Content/PageReloadTime", QVariant.int 5)]
        m_reloadTimer := env.newTimerId [{ id := env.newTimerId [], interval := 5000 }]
        timers := [{ id := env.newTimerId [], interval := 5000 },
                   { id := env.newTimerId [{ id := env.newTimerId [], interval := 5000 }],
                     interval := 5000 }]
        triggered := [ActionIdentifier.StopScheduledReloadAction,
                      ActionIdentifier.StopScheduledReloadAction] } := by
    rw [hset]
    simp [startReloadTimer, getOption, WebWidget.new, QVariantHash.contains,
      QVariantHash.value, QVariant.toInt_int, triggerAction, startTimer, wrapInt32]
  rw [hstart]
  refine ⟨rfl, rfl, ⟨{ id := env.newTimerId [], interval := 5000 }, by simp, ?_⟩⟩
  exact fun h => hfresh h.symm

/-- Witness for C8: timer ids counted up from 1; timers 1 and 2 both run. -/
theorem startReloadTimer_keeps_earlier_timer_witness :
    ((WebWidget.new.setOption sampleExternals "Content/PageReloadTime"
        (QVariant.int 5)).startReloadTimer sampleExternals).timers =
      [{ id := 1, interval := 5000 }, { id := 2, interval := 5000 }] :=
  (startReloadTimer_keeps_earlier_timer sampleExternals (by decide)).1

theorem TimerInv.killTimer_timers (w : WebWidget) (h : TimerInv w) :
    (w.killTimer w.m_reloadTimer).timers = [] := by
  simp only [killTimer]
  apply List.filter_eq_nil_iff.mpr
  intro t ht
  simp [(h.2 t ht).1]

theorem TimerInv.timers_eq_nil_of_idle (w : WebWidget) (h : TimerInv w)
    (h0 : w.m_reloadTimer = 0) : w.timers = [] := by
  cases hts : w.timers with
  | nil => rfl
  | cons t ts =>
    have := h.2 t (by simp [hts])
    exact absurd (this.1.trans h0) this.2

theorem timerInv_new : TimerInv WebWidget.new := by
  simp [TimerInv, WebWidget.new]

theorem timerInv_of_eq (w w1 : WebWidget) (ht : w1.timers = w.timers)
    (hr : w1.m_reloadTimer = w.m_reloadTimer) (h : TimerInv w) : TimerInv w1 := by
  simpa [TimerInv, ht, hr] using h

theorem setOptions_timerInv (w : WebWidget) (options : QVariantHash) (h : TimerInv w) :
    TimerInv (w.setOptions options) :=
  timerInv_of_eq w _ rfl rfl h

theorem clearOptions_timerInv (w : WebWidget) (h : TimerInv w) : TimerInv w.clearOptions :=
  timerInv_of_eq w _ rfl rfl h

theorem timerEvent_timerInv (env : Externals) (w : WebWidget) (timerId : Int)
    (h : TimerInv w) : TimerInv (w.timerEvent env timerId) := by
  by_cases hid : timerId = w.m_reloadTimer
  · have hnil := TimerInv.killTimer_timers w h
    cases hl : env.isLoading <;>
      simp [timerEvent, hid, hl, TimerInv, triggerAction, hnil]
  · simpa [timerEvent, hid] using h

/-- With timer ids that are never 0, `setOption` keeps the invariant that at
most one timer runs and that it is the recorded one. -/
theorem setOption_timerInv (env : Externals) (hid : ∀ ts, env.newTimerId ts ≠ 0)
    (w : WebWidget) (key : QString) (value : QVariant) (h : TimerInv w) :
    TimerInv (w.setOption env key value) := by
  unfold setOption
  by_cases hk1 : key = "Search/DefaultQuickSearchEngine"
  · simp only [hk1, if_true]
    split
    · refine timerInv_of_eq w _ ?_ ?_ h
      · unfold updateQuickSearch storeOption
        split <;> split <;> rfl
      · unfold updateQuickSearch storeOption
        split <;> split <;> rfl
    · exact h
  · simp only [hk1, if_false]
    by_cases hk2 : key = "Content/PageReloadTime"
    · simp only [hk2, if_true]
      split
      · exact h
      · have hidle : (if w.m_reloadTimer ≠ 0 then
              { w.killTimer w.m_reloadTimer with m_reloadTimer := 0 } else w).timers = [] ∧
            (if w.m_reloadTimer ≠ 0 then
              { w.killTimer w.m_reloadTimer with m_reloadTimer := 0 } else w).m_reloadTimer
              = 0 := by
          by_cases hr : w.m_reloadTimer = 0
          · rw [if_neg (not_not.mpr hr)]
            exact ⟨TimerInv.timers_eq_nil_of_idle w h hr, hr⟩
          · rw [if_pos hr]
            exact ⟨TimerInv.killTimer_timers w h, rfl⟩
        obtain ⟨ht, hr⟩ := hidle
        generalize (if w.m_reloadTimer ≠ 0 then
          { w.killTimer w.m_reloadTimer with m_reloadTimer := 0 } else w) = w1 at ht hr ⊢
        have hstore : ∀ w2 : WebWidget, TimerInv w2 →
            TimerInv (w2.storeOption "Content/PageReloadTime" value) := fun w2 h2 =>
          timerInv_of_eq w2 _ (storeOption_timers w2 _ _).1 (storeOption_timers w2 _ _).2 h2
        apply hstore
        by_cases hge : value.toInt ≥ 0
        · simp only [hge, if_true]
          by_cases hgt : value.toInt > 0
          · simp only [hgt, if_true]
            by_cases hneg : wrapInt32 (value.toInt * 1000) < 0
            · simp [startTimer, hneg, triggerAction, TimerInv, ht, hr]
            · simp [startTimer, hneg, triggerAction, TimerInv, ht, hid]
          · simp [hgt, triggerAction, TimerInv, ht, hr]
        · simp [hge, TimerInv, ht, hr]
    · simp only [hk2, if_false]
      exact timerInv_of_eq w _ (storeOption_timers w _ _).1 (storeOption_timers w _ _).2 h

theorem setReloadTime_timerInv (env : Externals) (hid : ∀ ts, env.newTimerId ts ≠ 0)
    (w : WebWidget) (action : QAction) (h : TimerInv w) :
    TimerInv (w.setReloadTime env action) := by
  unfold setReloadTime
  by_cases hc : action.data.toInt = -2
  · simp only [hc, if_true]
    cases env.reloadTimeDialog (max 0 (w.getOption env "Content/PageReloadTime" "").toInt) with
    | none => exact h
    | some chosen => exact setOption_timerInv env hid w _ _ h
  · simp only [hc, if_false]
    exact setOption_timerInv env hid w _ _ h

end Otter
